import Mathlib

/-!
Verification development for the client-side device-list polling cache of the
dashboard repository, a shallow embedding of
src/frontend-fix-examples/useNetworkDevicesNoQuery.ts (the useNetworkDevices
hook implemented without React Query).

The hook keeps four pieces of React state (devices, isLoading, isFetching,
error), a cached snapshot in a ref (cacheRef), and an AbortController ref
(abortControllerRef).  Each call to fetchDevices aborts the previous in-flight
request, installs a fresh controller, sets a loading or fetching flag, performs
the HTTP GET and JSON parse, and then either commits the result or runs the
catch handler.

Embedding choices:
- React state setters become field updates on a CacheState record.
- The AbortController ref is modelled by a generation counter currentGen:
  installing a fresh controller increments the generation, and a fetch whose
  generation is no longer current has been aborted, so its awaits reject with
  AbortError and its catch handler returns without touching any state.
- Calls to setDevices are counted by a ghost field devicesVersion, recording
  each time a new array identity is handed to React (a re-render signal).
- The HTTP layer is a value of type HttpOutcome: network failure, abort, or a
  response with a status code and a body that either parses to a device list
  or fails to parse.
-/

namespace NetworkDevicesHook

/-- Device status enum from the NetworkDevice interface:
status is one of online, offline, warning. -/
inductive DeviceStatus
  | online
  | offline
  | warning
deriving DecidableEq

/-- The NetworkDevice record: id, name, ip are required strings; mac, type and
lastSeen are optional strings; status is the three-valued enum. -/
structure Device where
  id : String
  name : String
  ip : String
  mac : Option String
  status : DeviceStatus
  type : Option String
  lastSeen : Option String
deriving DecidableEq

/-- Failure causes a fetch cycle can raise: the thrown HTTP error carrying the
status code (line 57), a network-level rejection of fetch, a JSON parse
rejection, and the AbortError produced by an aborted controller. -/
inductive Err
  | http (status : Nat)
  | network
  | parse
  | aborted
deriving DecidableEq

/-- The state owned by one instance of the hook: the four useState cells,
the cacheRef contents, the ghost setDevices call counter, and the generation
counter standing for abortControllerRef.current. -/
structure CacheState where
  devices : List Device
  isLoading : Bool
  isFetching : Bool
  error : Option Err
  cache : List Device
  devicesVersion : Nat
  currentGen : Nat
deriving DecidableEq

/-- Initial state on mount: devices = [], isLoading = true, isFetching = false,
error = null, cacheRef.current = []. -/
def initState : CacheState :=
  { devices := []
    isLoading := true
    isFetching := false
    error := none
    cache := []
    devicesVersion := 0
    currentGen := 0 }

/-- What the transport hands back for one request: a network-level failure, an
abort (controller cancelled, e.g. on teardown), or an HTTP response with a
status code and a body.  The body is some parsed device list, or none when the
JSON body does not parse as one. -/
inductive HttpOutcome
  | netError
  | aborted
  | resp (status : Nat) (body : Option (List Device))
deriving DecidableEq

/-- Fetch Response.ok per the fetch standard: status in the range 200-299. -/
def responseOk (status : Nat) : Bool :=
  decide (200 ≤ status ∧ status ≤ 299)

/-- Outcome of the awaited part of the try block: the parsed device list, or
the error the block throws. -/
inductive FetchResult
  | success (ds : List Device)
  | failure (e : Err)
deriving DecidableEq

/-- Line 56-58: if (!response.ok) throw new Error with the HTTP status. -/
def checkOk (status : Nat) : Except Err Unit :=
  if responseOk status then Except.ok () else Except.error (Err.http status)

/-- Line 60: await response.json(); rejects with a parse error when the body
is not a device list. -/
def parseJson (body : Option (List Device)) : Except Err (List Device) :=
  match body with
  | some ds => Except.ok ds
  | none => Except.error Err.parse

/-- The awaited section of the try block (lines 52-60): the fetch itself can
reject with a network error or an AbortError; otherwise the response status is
checked and the body parsed. -/
def interpret (o : HttpOutcome) : FetchResult :=
  match o with
  | HttpOutcome.netError => FetchResult.failure Err.network
  | HttpOutcome.aborted => FetchResult.failure Err.aborted
  | HttpOutcome.resp status body =>
    match checkOk status with
    | Except.error e => FetchResult.failure e
    | Except.ok _ =>
      match parseJson body with
      | Except.ok ds => FetchResult.success ds
      | Except.error e => FetchResult.failure e

/-- The synchronous prefix of fetchDevices (lines 40-50): abort the previous
controller and install a fresh one (generation bump), then show background
fetching when a cached snapshot exists and this is not the initial load, else
show loading. -/
def startFetch (s : CacheState) (isInitialLoad : Bool) : CacheState :=
  if !s.cache.isEmpty && !isInitialLoad then
    { s with currentGen := s.currentGen + 1, isFetching := true }
  else
    { s with currentGen := s.currentGen + 1, isLoading := true }

/-- The continuation of fetchDevices after its awaits settle (lines 62-88).
On success: update cacheRef and devices only when the new snapshot differs
structurally from the cached one (the JSON.stringify comparison, line 64),
then clear error and both flags.  On failure: the AbortError branch returns
without touching state (lines 76-78); any other error is stored, isFetching is
cleared, and isLoading is cleared only when a cached snapshot exists
(lines 81-87). -/
def onResult (s : CacheState) (r : FetchResult) : CacheState :=
  match r with
  | FetchResult.success newDevices =>
    if newDevices ≠ s.cache then
      { s with
          cache := newDevices
          devices := newDevices
          devicesVersion := s.devicesVersion + 1
          error := none
          isLoading := false
          isFetching := false }
    else
      { s with error := none, isLoading := false, isFetching := false }
  | FetchResult.failure e =>
    if e = Err.aborted then s
    else if s.cache.isEmpty then
      { s with error := some e, isFetching := false }
    else
      { s with error := some e, isFetching := false, isLoading := false }

/-- Completion of the fetch issued at generation g.  If a newer fetch has been
issued since (g is no longer the current generation), the old request was
aborted: its awaits rejected with AbortError and its catch handler returned
without mutating anything.  Otherwise the raw outcome is handled as in the
source. -/
def completeFetch (s : CacheState) (g : Nat) (o : HttpOutcome) : CacheState :=
  if g = s.currentGen then onResult s (interpret o) else s

/-- Events observable at this cache: the synchronous start of a fetch cycle
(mount effect with isInitialLoad = true, poll tick or refetch with false) and
the asynchronous completion of the fetch issued at a given generation. -/
inductive Ev
  | start (isInitialLoad : Bool)
  | complete (gen : Nat) (o : HttpOutcome)
deriving DecidableEq

/-- An event is a benign completion for the devices-stay-nonempty invariant
when, if it is a completion that parses successfully, the parsed snapshot is
non-empty.  Starts and failing completions are always benign. -/
def nonEmptySuccessB (e : Ev) : Bool :=
  match e with
  | Ev.start _ => true
  | Ev.complete _ o =>
    match interpret o with
    | FetchResult.success ds => !ds.isEmpty
    | FetchResult.failure _ => true

/-- One step of the cache.  fetchDevices returns immediately when enabled is
false (line 36), so a start is a no-op then; completions only exist for
requests that were actually issued. -/
def step (enabled : Bool) (s : CacheState) (e : Ev) : CacheState :=
  match e with
  | Ev.start b => if enabled then startFetch s b else s
  | Ev.complete g o => completeFetch s g o

/-- Run the cache from a state through a sequence of events. -/
def run (enabled : Bool) (s : CacheState) (evs : List Ev) : CacheState :=
  evs.foldl (step enabled) s

/-- One whole non-overlapping fetch cycle of fetchDevices: the enabled guard,
the synchronous prefix, then the completion of the request it issued. -/
def fetchDevices (enabled : Bool) (s : CacheState) (isInitialLoad : Bool)
    (o : HttpOutcome) : CacheState :=
  if enabled then onResult (startFetch s isInitialLoad) (interpret o) else s

/-- A concrete device used by counterexamples and witnesses (the scenario
device of the spec). -/
def d1 : Device :=
  { id := "1"
    name := "A"
    ip := "10.0.0.1"
    mac := none
    status := DeviceStatus.online
    type := none
    lastSeen := none }

/-! Helper lemmas shared by the claim theorems. -/

theorem startFetch_devices (s : CacheState) (b : Bool) :
    (startFetch s b).devices = s.devices := by
  unfold startFetch; split <;> rfl

theorem startFetch_cache (s : CacheState) (b : Bool) :
    (startFetch s b).cache = s.cache := by
  unfold startFetch; split <;> rfl

theorem startFetch_currentGen (s : CacheState) (b : Bool) :
    (startFetch s b).currentGen = s.currentGen + 1 := by
  unfold startFetch; split <;> rfl

theorem onResult_failure_devices (s : CacheState) (e : Err) :
    (onResult s (FetchResult.failure e)).devices = s.devices := by
  simp only [onResult]; split <;> (try split) <;> rfl

theorem onResult_failure_cache (s : CacheState) (e : Err) :
    (onResult s (FetchResult.failure e)).cache = s.cache := by
  simp only [onResult]; split <;> (try split) <;> rfl

theorem onResult_success_devices (s : CacheState) (ds : List Device) :
    (onResult s (FetchResult.success ds)).devices =
      if ds = s.cache then s.devices else ds := by
  simp only [onResult]; split <;> simp_all

theorem onResult_success_cache (s : CacheState) (ds : List Device) :
    (onResult s (FetchResult.success ds)).cache =
      if ds = s.cache then s.cache else ds := by
  simp only [onResult]; split <;> simp_all

theorem completeFetch_stale (s : CacheState) (g : Nat) (o : HttpOutcome)
    (h : g ≠ s.currentGen) : completeFetch s g o = s := by
  simp [completeFetch, h]

theorem step_devices_eq_cache (enabled : Bool) (s : CacheState) (e : Ev)
    (h : s.devices = s.cache) :
    (step enabled s e).devices = (step enabled s e).cache := by
  cases e with
  | start b =>
    simp only [step]
    split
    · rw [startFetch_devices, startFetch_cache, h]
    · exact h
  | complete g o =>
    simp only [step, completeFetch]
    split
    · cases hr : interpret o with
      | success ds =>
        rw [onResult_success_devices, onResult_success_cache, h]
      | failure er =>
        rw [onResult_failure_devices, onResult_failure_cache, h]
    · exact h

theorem run_devices_eq_cache (enabled : Bool) :
    ∀ (evs : List Ev) (s : CacheState), s.devices = s.cache →
      (run enabled s evs).devices = (run enabled s evs).cache := by
  intro evs
  induction evs with
  | nil => intro s h; exact h
  | cons e evs ih =>
    intro s h
    exact ih (step enabled s e) (step_devices_eq_cache enabled s e h)

theorem step_devices_ne_nil (enabled : Bool) (s : CacheState) (e : Ev)
    (h1 : s.devices ≠ []) (h2 : nonEmptySuccessB e = true) :
    (step enabled s e).devices ≠ [] := by
  cases e with
  | start b =>
    simp only [step]
    split
    · rw [startFetch_devices]; exact h1
    · exact h1
  | complete g o =>
    simp only [step, completeFetch]
    split
    · cases hr : interpret o with
      | success ds =>
        have hds : ds ≠ [] := by
          simp only [nonEmptySuccessB, hr, Bool.not_eq_true'] at h2
          intro hnil
          rw [hnil] at h2
          simp at h2
        rw [onResult_success_devices]
        split
        · exact h1
        · exact hds
      | failure er =>
        rw [onResult_failure_devices]; exact h1
    · exact h1

theorem run_devices_ne_nil (enabled : Bool) :
    ∀ (evs : List Ev) (s : CacheState), s.devices ≠ [] →
      (∀ e ∈ evs, nonEmptySuccessB e = true) → (run enabled s evs).devices ≠ [] := by
  intro evs
  induction evs with
  | nil => intro s h _; exact h
  | cons e evs ih =>
    intro s h hall
    exact ih (step enabled s e)
      (step_devices_ne_nil enabled s e h (hall e (List.mem_cons_self e evs)))
      (fun x hx => hall x (List.mem_cons_of_mem e hx))

/-! Claim theorems. -/

/-- C3: when two fetches overlap, only the most recently issued fetch can
mutate the cache state: a completion whose generation is no longer current
leaves every field unchanged, issuing a new fetch supersedes (aborts) the
previous generation, and after a new start the previously current generation
also completes as a no-op. -/
theorem stale_fetch_never_overwrites (s : CacheState) (b : Bool) (g : Nat)
    (o o2 : HttpOutcome) (h : g ≠ s.currentGen) :
    completeFetch s g o = s ∧
    (startFetch s b).currentGen = s.currentGen + 1 ∧
    completeFetch (startFetch s b) s.currentGen o2 = startFetch s b := by
  refine ⟨completeFetch_stale s g o h, startFetch_currentGen s b, ?_⟩
  apply completeFetch_stale
  rw [startFetch_currentGen]
  omega

/-- C3 witness: a concrete stale completion with a would-be successful result
is discarded after a newer fetch was issued. -/
theorem stale_fetch_never_overwrites_witness :
    (1 : Nat) ≠ initState.currentGen ∧
    completeFetch initState 1 (HttpOutcome.resp 200 (some [d1])) = initState := by
  refine ⟨by decide, ?_⟩
  exact (stale_fetch_never_overwrites initState true 1
    (HttpOutcome.resp 200 (some [d1])) HttpOutcome.netError (by decide)).1

/-- C4: structural no-op on success.  Starting from a state where the cache
and the exposed devices agree (which holds in every reachable state), a
successful fetch replaces devices exactly when the new snapshot differs
structurally from the current one, and calls setDevices (bumping the ghost
version) exactly in that case. -/
theorem structural_noop (s : CacheState) (ds : List Device)
    (h : s.cache = s.devices) :
    ((onResult s (FetchResult.success ds)).devices =
      if ds = s.devices then s.devices else ds) ∧
    ((onResult s (FetchResult.success ds)).devicesVersion =
      if ds = s.devices then s.devicesVersion else s.devicesVersion + 1) := by
  constructor
  · rw [onResult_success_devices, h]
  · simp only [onResult]
    split <;> simp_all

/-- C4 witness: refetching the same one-element snapshot leaves devices and
the version untouched. -/
theorem structural_noop_witness :
    ({ initState with devices := [d1], cache := [d1] } : CacheState).cache =
      ({ initState with devices := [d1], cache := [d1] } : CacheState).devices ∧
    (onResult { initState with devices := [d1], cache := [d1] }
        (FetchResult.success [d1])).devicesVersion =
      ({ initState with devices := [d1], cache := [d1] } : CacheState).devicesVersion := by
  refine ⟨rfl, ?_⟩
  have h := (structural_noop { initState with devices := [d1], cache := [d1] } [d1] rfl).2
  simpa using h

/-- C5: failure handling.  An AbortError (deliberate cancellation) is
discarded silently with no state change, both when the current request is
aborted and when a stale generation completes; any other failure stores the
cause in error, clears isFetching, and clears isLoading only when a prior
snapshot exists. -/
theorem failure_handling (s : CacheState) (e : Err) (g : Nat) (o : HttpOutcome)
    (h1 : e ≠ Err.aborted) (h2 : g ≠ s.currentGen) :
    onResult s (FetchResult.failure Err.aborted) = s ∧
    completeFetch s g o = s ∧
    onResult s (FetchResult.failure e) =
      { s with
          error := some e
          isFetching := false
          isLoading := if s.cache.isEmpty then s.isLoading else false } := by
  refine ⟨by simp [onResult], completeFetch_stale s g o h2, ?_⟩
  simp only [onResult, if_neg h1]
  split <;> simp_all

/-- C5 witness: a network failure at the current generation surfaces the
error while an aborted current request changes nothing. -/
theorem failure_handling_witness :
    Err.network ≠ Err.aborted ∧
    (1 : Nat) ≠ initState.currentGen ∧
    onResult initState (FetchResult.failure Err.aborted) = initState := by
  refine ⟨by decide, by decide, ?_⟩
  exact (failure_handling initState Err.network 1 HttpOutcome.netError
    (by decide) (by decide)).1

/-- C6: flag discipline of one fetch cycle.  At the start, isFetching is set
to true exactly when a cached snapshot exists and the call is not the initial
load (isLoading untouched); otherwise isLoading is set to true (isFetching
untouched).  On success the cycle clears error and sets both isLoading and
isFetching to false. -/
theorem fetch_cycle_flags (s : CacheState) (b : Bool) (ds : List Device) :
    ((startFetch s b).isFetching =
      if !s.cache.isEmpty && !b then true else s.isFetching) ∧
    ((startFetch s b).isLoading =
      if !s.cache.isEmpty && !b then s.isLoading else true) ∧
    (onResult s (FetchResult.success ds)).error = none ∧
    (onResult s (FetchResult.success ds)).isLoading = false ∧
    (onResult s (FetchResult.success ds)).isFetching = false := by
  refine ⟨?_, ?_, ?_, ?_, ?_⟩ <;>
    first
      | (unfold startFetch; split <;> simp_all)
      | (simp only [onResult]; split <;> rfl)

/-- C7: a fetch cycle fails exactly when the transport fails, the status is
non-2xx, or the body does not parse; a non-2xx status always produces the
HTTP error carrying that status code, and a 2xx response with a parsable body
yields its device list. -/
theorem http_failure_iff (status : Nat) (body : Option (List Device))
    (ds : List Device) :
    ((∃ r, interpret (HttpOutcome.resp status body) = FetchResult.success r) ↔
      (responseOk status = true ∧ body ≠ none)) ∧
    (responseOk status = false →
      interpret (HttpOutcome.resp status body) = FetchResult.failure (Err.http status)) ∧
    (responseOk status = true →
      interpret (HttpOutcome.resp status (some ds)) = FetchResult.success ds) ∧
    interpret HttpOutcome.netError = FetchResult.failure Err.network := by
  refine ⟨?_, ?_, ?_, rfl⟩
  · constructor
    · rintro ⟨r, hr⟩
      simp only [interpret, checkOk, parseJson] at hr
      by_cases hok : responseOk status
      · cases body with
        | none => simp [hok] at hr
        | some l => exact ⟨hok, by simp⟩
      · simp [hok] at hr
    · rintro ⟨hok, hbody⟩
      cases body with
      | none => exact absurd rfl hbody
      | some l =>
        exact ⟨l, by simp [interpret, checkOk, parseJson, hok]⟩
  · intro hok
    cases body <;> simp [interpret, checkOk, parseJson, hok]
  · intro hok
    simp [interpret, checkOk, parseJson, hok]

/-- C7 witness: a 500 response fails with the status carried in the error and
a 200 response with a parsable body succeeds with the parsed list. -/
theorem http_failure_iff_witness :
    responseOk 500 = false ∧
    interpret (HttpOutcome.resp 500 (some [])) = FetchResult.failure (Err.http 500) ∧
    responseOk 200 = true ∧
    interpret (HttpOutcome.resp 200 (some [d1])) = FetchResult.success [d1] :=
  ⟨by decide,
   (http_failure_iff 500 (some []) []).2.1 (by decide),
   by decide,
   (http_failure_iff 200 (some [d1]) [d1]).2.2.1 (by decide)⟩

/-- C1 counterexample: the claim quantifies over all sequences of fetch
completions, successes included, but a successful fetch that returns an empty
array replaces a previously non-empty devices list with the empty list.
After the first success the exposed devices list is non-empty; after a second
successful fetch returning [] it is empty. -/
theorem devices_emptied_by_empty_success :
    (run true initState
      [Ev.start true,
       Ev.complete 1 (HttpOutcome.resp 200 (some [d1]))]).devices ≠ [] ∧
    (run true initState
      [Ev.start true,
       Ev.complete 1 (HttpOutcome.resp 200 (some [d1])),
       Ev.start false,
       Ev.complete 2 (HttpOutcome.resp 200 (some []))]).devices = [] := by
  decide

/-- C1 amended: fetch failures and fetch starts never modify devices, and for
every sequence of events in which no successful completion carries an empty
snapshot, devices never becomes empty once it is non-empty. -/
theorem devices_stay_nonempty (enabled : Bool) (s : CacheState) (evs : List Ev)
    (h1 : s.devices ≠ [])
    (h2 : ∀ e ∈ evs, nonEmptySuccessB e = true) :
    (run enabled s evs).devices ≠ [] ∧
    ∀ (g : Nat) (o : HttpOutcome) (er : Err),
      interpret o = FetchResult.failure er →
      (step enabled s (Ev.complete g o)).devices = s.devices := by
  refine ⟨run_devices_ne_nil enabled evs s h1 h2, ?_⟩
  intro g o er ho
  simp only [step, completeFetch]
  split
  · rw [ho, onResult_failure_devices]
  · rfl

/-- C1 amended witness: starting from a one-device state, a poll tick, a
network failure and a successful refresh of the same snapshot leave devices
non-empty. -/
theorem devices_stay_nonempty_witness :
    ({ initState with devices := [d1], cache := [d1] } : CacheState).devices ≠ [] ∧
    (∀ e ∈ [Ev.start false, Ev.complete 2 HttpOutcome.netError,
        Ev.start false, Ev.complete 3 (HttpOutcome.resp 200 (some [d1]))],
      nonEmptySuccessB e = true) ∧
    (run true { initState with devices := [d1], cache := [d1] }
      [Ev.start false, Ev.complete 2 HttpOutcome.netError,
       Ev.start false, Ev.complete 3 (HttpOutcome.resp 200 (some [d1]))]).devices ≠ [] := by
  refine ⟨by decide, by decide, ?_⟩
  exact (devices_stay_nonempty true { initState with devices := [d1], cache := [d1] }
    [Ev.start false, Ev.complete 2 HttpOutcome.netError,
     Ev.start false, Ev.complete 3 (HttpOutcome.resp 200 (some [d1]))]
    (by decide) (by decide)).1

/-- C2 counterexample: isLoading can be set to true again after the first
fetch has resolved.  The initial fetch succeeds with an empty array, so
isLoading is false (the first fetch resolved); the cache is still empty, so
the next poll tick takes the setIsLoading(true) branch. -/
theorem isLoading_reasserted_after_first_fetch :
    (run true initState
      [Ev.start true,
       Ev.complete 1 (HttpOutcome.resp 200 (some []))]).isLoading = false ∧
    (run true initState
      [Ev.start true,
       Ev.complete 1 (HttpOutcome.resp 200 (some [])),
       Ev.start false]).isLoading = true := by
  decide

/-- C2 amended: once isLoading is false and a non-empty snapshot is cached,
neither a non-initial fetch start nor any fetch completion sets isLoading
back to true; isLoading can only be re-asserted by a fetch start made while
the cached snapshot is empty (or an initial-load start). -/
theorem isLoading_not_reasserted (enabled : Bool) (s : CacheState) (g : Nat)
    (o : HttpOutcome) (h1 : s.isLoading = false) (h2 : s.cache ≠ []) :
    (step enabled s (Ev.start false)).isLoading = false ∧
    (step enabled s (Ev.complete g o)).isLoading = false := by
  have hne : s.cache.isEmpty = false := by
    cases hc : s.cache with
    | nil => exact absurd hc h2
    | cons a l => rfl
  constructor
  · simp only [step]
    split
    · unfold startFetch
      rw [hne]
      simp [h1]
    · exact h1
  · simp only [step, completeFetch]
    split
    · cases hr : interpret o with
      | success ds =>
        simp only [onResult]
        split <;> rfl
      | failure er =>
        simp only [onResult]
        split
        · exact h1
        · rw [if_neg (by rw [hne]; exact Bool.false_ne_true)]
    · exact h1

/-- C2 amended witness: with one device cached and isLoading already false, a
poll tick and a failing completion both leave isLoading false. -/
theorem isLoading_not_reasserted_witness :
    ({ initState with devices := [d1], cache := [d1], isLoading := false } :
        CacheState).isLoading = false ∧
    ({ initState with devices := [d1], cache := [d1], isLoading := false } :
        CacheState).cache ≠ [] ∧
    (step true { initState with devices := [d1], cache := [d1], isLoading := false }
      (Ev.start false)).isLoading = false := by
  refine ⟨rfl, by decide, ?_⟩
  exact (isLoading_not_reasserted true
    { initState with devices := [d1], cache := [d1], isLoading := false }
    0 HttpOutcome.netError rfl (by decide)).1

/-- C8: the exposed devices state and the internal cache ref always hold the
same list: they start equal and every event either updates them together or
leaves both unchanged, so after any sequence of events they agree. -/
theorem devices_eq_cache_invariant (enabled : Bool) (evs : List Ev) :
    (run enabled initState evs).devices = (run enabled initState evs).cache :=
  run_devices_eq_cache enabled evs initState rfl

/-- C9: the prior-snapshot test is non-emptiness of the cache, so an empty
snapshot does not count: with an empty cache, a non-initial fetch start sets
isLoading (not isFetching), a non-cancellation failure leaves isLoading
unchanged, and a successful fetch of the empty list keeps the cache empty. -/
theorem empty_snapshot_edge (s : CacheState) (e : Err)
    (h1 : s.cache = []) (h2 : e ≠ Err.aborted) :
    (startFetch s false).isLoading = true ∧
    (startFetch s false).isFetching = s.isFetching ∧
    (onResult s (FetchResult.failure e)).isLoading = s.isLoading ∧
    (onResult s (FetchResult.success [])).cache = [] := by
  have hemp : s.cache.isEmpty = true := by rw [h1]; rfl
  refine ⟨?_, ?_, ?_, ?_⟩
  · unfold startFetch; rw [hemp]; rfl
  · unfold startFetch; rw [hemp]; rfl
  · simp only [onResult, if_neg h2, hemp]
    rfl
  · rw [onResult_success_cache, h1]
    rfl

/-- C9 witness: the state reached after a successful initial fetch that
returned an empty array has an empty cache, and from it a poll tick sets
isLoading while a network failure leaves isLoading unchanged. -/
theorem empty_snapshot_edge_witness :
    (run true initState
      [Ev.start true, Ev.complete 1 (HttpOutcome.resp 200 (some []))]).cache = [] ∧
    Err.network ≠ Err.aborted ∧
    (startFetch (run true initState
      [Ev.start true, Ev.complete 1 (HttpOutcome.resp 200 (some []))])
        false).isLoading = true ∧
    (onResult (run true initState
      [Ev.start true, Ev.complete 1 (HttpOutcome.resp 200 (some []))])
        (FetchResult.failure Err.network)).isLoading =
      (run true initState
        [Ev.start true, Ev.complete 1 (HttpOutcome.resp 200 (some []))]).isLoading := by
  refine ⟨by decide, by decide, ?_, ?_⟩
  · exact (empty_snapshot_edge (run true initState
      [Ev.start true, Ev.complete 1 (HttpOutcome.resp 200 (some []))])
      Err.network (by decide) (by decide)).1
  · exact (empty_snapshot_edge (run true initState
      [Ev.start true, Ev.complete 1 (HttpOutcome.resp 200 (some []))])
      Err.network (by decide) (by decide)).2.2.1

/-- C10: the fetch cycle handles every failure mode.  When enabled is false
the whole cycle is the identity on the state (no request issued: the
controller generation is unchanged), and every raised error is consumed by
the catch handler: an AbortError is swallowed with no state change and every
other error lands in the error-surfacing branch, so the cycle always resolves
to a well-defined next state and never rejects. -/
theorem fetch_cycle_total (s : CacheState) (b : Bool) (o : HttpOutcome)
    (e : Err) :
    fetchDevices false s b o = s ∧
    (fetchDevices false s b o).currentGen = s.currentGen ∧
    ((e = Err.aborted ∧ onResult s (FetchResult.failure e) = s) ∨
      onResult s (FetchResult.failure e) =
        { s with
            error := some e
            isFetching := false
            isLoading := if s.cache.isEmpty then s.isLoading else false }) := by
  refine ⟨rfl, rfl, ?_⟩
  by_cases h : e = Err.aborted
  · exact Or.inl ⟨h, by rw [h]; simp [onResult]⟩
  · refine Or.inr ?_
    simp only [onResult, if_neg h]
    split <;> simp_all

end NetworkDevicesHook
